import Mathlib

/-!
Shallow embedding of the data aggregation layer of the food-waste
dashboard.  The embedded functions are direct translations of the
TypeScript utilities `filterData`, `getRegionData`, `getComparisonData`,
`getTopWasteCountries` (the data-utility module) and of the synthetic
trend module (`generateTrendData`, `getGlobalTrendData`,
`getRegionalTrendData`).

Modelling decisions:
* JavaScript numbers are modelled as exact rationals (`ℚ`).
* `Array.prototype.sort` with a numeric comparator is a stable sort and
  is modelled by `List.mergeSort`; `sort()` without comparator compares
  the elements as strings (code-unit lexicographic order) and is
  modelled by `jsSortIntsDefault` below.
* `Array.prototype.slice(0, n)` with a possibly negative `n` is
  modelled by `jsSlice0`.
* A JavaScript `Map` keeps keys in insertion order; grouping through a
  `Map` is modelled by first-occurrence deduplication (`jsSetDedup`)
  plus `List.filter` per key.
* `Number.prototype.toFixed(1)` followed by `Number(...)` is modelled
  by exact rounding to one decimal (`roundTo1`); ties round towards
  `+∞`, matching the `toFixed` specification of picking the larger
  candidate.
* The generator's ambient `Date` and `Math.random()` dependencies are
  made explicit parameters (`currentYear`, a per-country per-point
  factor function), as the spec requires for testability; each point
  draws one shared factor used by all four metrics, exactly as in the
  source.
-/

inductive ConfidenceLevel where
  | veryLowConfidence
  | lowConfidence
  | mediumConfidence
  | highConfidence
  deriving DecidableEq

inductive WasteType where
  | combined
  | household
  | retail
  | foodService
  deriving DecidableEq

structure FoodWasteData where
  country : String
  combinedFigures : ℚ
  householdEstimatePerCapita : ℚ
  householdEstimateTotal : ℚ
  retailEstimatePerCapita : ℚ
  retailEstimateTotal : ℚ
  foodServiceEstimatePerCapita : ℚ
  foodServiceEstimateTotal : ℚ
  confidenceInEstimate : ConfidenceLevel
  m49Code : ℤ
  region : String
  source : String
  deriving DecidableEq

structure FilterOptions where
  region : Option String
  confidence : Option ConfidenceLevel
  minWaste : Option ℚ
  maxWaste : Option ℚ
  wasteType : Option WasteType
  deriving DecidableEq

structure RegionData where
  region : String
  averageCombinedFigures : ℚ
  totalCountries : ℕ
  totalHouseholdWaste : ℚ
  totalRetailWaste : ℚ
  totalFoodServiceWaste : ℚ
  deriving DecidableEq

structure WasteDistribution where
  household : ℚ
  retail : ℚ
  foodService : ℚ
  deriving DecidableEq

structure ComparisonData where
  country : String
  combinedFigures : ℚ
  wasteSources : WasteDistribution
  deriving DecidableEq

/-- `if (options.region) { filteredData = filteredData.filter(...) }`.
The truthiness test means an empty-string region imposes no
restriction. -/
def applyRegionFilter (options : FilterOptions) (data : List FoodWasteData) :
    List FoodWasteData :=
  match options.region with
  | none => data
  | some reg =>
      if reg = "" then data
      else data.filter (fun item => item.region == reg)

/-- `if (options.confidence) { filteredData = filteredData.filter(...) }`. -/
def applyConfidenceFilter (options : FilterOptions) (data : List FoodWasteData) :
    List FoodWasteData :=
  match options.confidence with
  | none => data
  | some conf => data.filter (fun item => decide (item.confidenceInEstimate = conf))

/-- `if (options.minWaste !== undefined) { ... item.combinedFigures >= options.minWaste ... }`. -/
def applyMinWasteFilter (options : FilterOptions) (data : List FoodWasteData) :
    List FoodWasteData :=
  match options.minWaste with
  | none => data
  | some minWaste => data.filter (fun item => decide (minWaste ≤ item.combinedFigures))

/-- `if (options.maxWaste !== undefined) { ... item.combinedFigures <= options.maxWaste ... }`. -/
def applyMaxWasteFilter (options : FilterOptions) (data : List FoodWasteData) :
    List FoodWasteData :=
  match options.maxWaste with
  | none => data
  | some maxWaste => data.filter (fun item => decide (item.combinedFigures ≤ maxWaste))

/-- The `switch (options.wasteType)` block: a non-`combined` waste type
replaces each surviving record's `combinedFigures` by the corresponding
per-capita source figure (a structural copy). -/
def applyWasteTypeProjection (options : FilterOptions) (data : List FoodWasteData) :
    List FoodWasteData :=
  match options.wasteType with
  | some WasteType.household =>
      data.map (fun item => { item with combinedFigures := item.householdEstimatePerCapita })
  | some WasteType.retail =>
      data.map (fun item => { item with combinedFigures := item.retailEstimatePerCapita })
  | some WasteType.foodService =>
      data.map (fun item => { item with combinedFigures := item.foodServiceEstimatePerCapita })
  | _ => data

/-- `filterData(data, options?)`: the five blocks of the source run in
order on a copy of the input. -/
def filterData (data : List FoodWasteData) (options : Option FilterOptions) :
    List FoodWasteData :=
  match options with
  | none => data
  | some opts =>
      applyWasteTypeProjection opts
        (applyMaxWasteFilter opts
          (applyMinWasteFilter opts
            (applyConfidenceFilter opts
              (applyRegionFilter opts data))))

/-- Spec-shaped predicate: the record's (original) `combinedFigures`
lies within the inclusive `minWaste`/`maxWaste` bounds. -/
def withinWasteBounds (minW maxW : Option ℚ) (x : ℚ) : Bool :=
  (match minW with
   | none => true
   | some m => decide (m ≤ x)) &&
  (match maxW with
   | none => true
   | some m => decide (x ≤ m))

/-- Spec-shaped projection of a single record for a waste type. -/
def projectRecord (wasteType : WasteType) (item : FoodWasteData) : FoodWasteData :=
  match wasteType with
  | WasteType.combined => item
  | WasteType.household => { item with combinedFigures := item.householdEstimatePerCapita }
  | WasteType.retail => { item with combinedFigures := item.retailEstimatePerCapita }
  | WasteType.foodService => { item with combinedFigures := item.foodServiceEstimatePerCapita }

/-- Projection for an optional waste type (`none` means no projection). -/
def projectOptRecord (wasteType : Option WasteType) (item : FoodWasteData) : FoodWasteData :=
  match wasteType with
  | none => item
  | some wt => projectRecord wt item

def regionPred (options : FilterOptions) (item : FoodWasteData) : Bool :=
  match options.region with
  | none => true
  | some reg => if reg = "" then true else item.region == reg

def confidencePred (options : FilterOptions) (item : FoodWasteData) : Bool :=
  match options.confidence with
  | none => true
  | some conf => decide (item.confidenceInEstimate = conf)

def minWastePred (options : FilterOptions) (item : FoodWasteData) : Bool :=
  match options.minWaste with
  | none => true
  | some minWaste => decide (minWaste ≤ item.combinedFigures)

def maxWastePred (options : FilterOptions) (item : FoodWasteData) : Bool :=
  match options.maxWaste with
  | none => true
  | some maxWaste => decide (item.combinedFigures ≤ maxWaste)

/-- Conjunction of the four filter predicates of `filterData`. -/
def passesCriteria (options : FilterOptions) (item : FoodWasteData) : Bool :=
  regionPred options item && confidencePred options item &&
    minWastePred options item && maxWastePred options item

lemma applyRegionFilter_eq (options : FilterOptions) (data : List FoodWasteData) :
    applyRegionFilter options data = data.filter (regionPred options) := by
  unfold applyRegionFilter regionPred
  cases options.region with
  | none => simp
  | some reg =>
      by_cases h : reg = "" <;> simp [h]

lemma applyConfidenceFilter_eq (options : FilterOptions) (data : List FoodWasteData) :
    applyConfidenceFilter options data = data.filter (confidencePred options) := by
  unfold applyConfidenceFilter confidencePred
  cases options.confidence <;> simp

lemma applyMinWasteFilter_eq (options : FilterOptions) (data : List FoodWasteData) :
    applyMinWasteFilter options data = data.filter (minWastePred options) := by
  unfold applyMinWasteFilter minWastePred
  cases options.minWaste <;> simp

lemma applyMaxWasteFilter_eq (options : FilterOptions) (data : List FoodWasteData) :
    applyMaxWasteFilter options data = data.filter (maxWastePred options) := by
  unfold applyMaxWasteFilter maxWastePred
  cases options.maxWaste <;> simp

lemma applyWasteTypeProjection_eq (options : FilterOptions) (data : List FoodWasteData) :
    applyWasteTypeProjection options data = data.map (projectOptRecord options.wasteType) := by
  unfold applyWasteTypeProjection projectOptRecord projectRecord
  cases options.wasteType with
  | none => simp
  | some wt => cases wt <;> simp

/-- Normal form of `filterData`: filter by the conjunction of the four
predicates (all reading the original `combinedFigures`), then project. -/
lemma filterData_eq (data : List FoodWasteData) (options : FilterOptions) :
    filterData data (some options) =
      (data.filter (passesCriteria options)).map (projectOptRecord options.wasteType) := by
  show applyWasteTypeProjection options
      (applyMaxWasteFilter options
        (applyMinWasteFilter options
          (applyConfidenceFilter options
            (applyRegionFilter options data)))) = _
  rw [applyRegionFilter_eq, applyConfidenceFilter_eq, applyMinWasteFilter_eq,
    applyMaxWasteFilter_eq, applyWasteTypeProjection_eq,
    List.filter_filter, List.filter_filter, List.filter_filter]
  congr 1
  apply List.filter_congr
  intro a _
  unfold passesCriteria
  cases regionPred options a <;> cases confidencePred options a <;>
    cases minWastePred options a <;> cases maxWastePred options a <;> rfl

/-- Convenience constructor for concrete example records. -/
def wasteRecord (name : String) (combined household retail foodService : ℚ)
    (region : String) : FoodWasteData :=
  { country := name
    combinedFigures := combined
    householdEstimatePerCapita := household
    householdEstimateTotal := 0
    retailEstimatePerCapita := retail
    retailEstimateTotal := 0
    foodServiceEstimatePerCapita := foodService
    foodServiceEstimateTotal := 0
    confidenceInEstimate := ConfidenceLevel.highConfidence
    m49Code := 0
    region := region
    source := "" }

/-- Record A of the spec's end-to-end example. -/
def exRecordA : FoodWasteData := wasteRecord "A" 100 60 20 20 "X"

/-- Record B of the spec's end-to-end example. -/
def exRecordB : FoodWasteData := wasteRecord "B" 50 30 10 10 "X"

/-- C1: for criteria combining `minWaste`/`maxWaste` bounds with a
non-`combined` waste-type projection, `filterData` keeps exactly the
records whose original `combinedFigures` lies within the inclusive
bounds and only then replaces each survivor's `combinedFigures` by the
corresponding source figure (filter-then-project, never
project-then-filter). -/
theorem filterData_filters_before_projecting (data : List FoodWasteData)
    (minW maxW : Option ℚ) (wt : WasteType) (_hwt : wt ≠ WasteType.combined) :
    filterData data
        (some { region := none, confidence := none, minWaste := minW,
                maxWaste := maxW, wasteType := some wt }) =
      (data.filter (fun item => withinWasteBounds minW maxW item.combinedFigures)).map
        (projectRecord wt) := by
  rw [filterData_eq]
  show (List.filter _ data).map (projectRecord wt) = _
  congr 1

/-- Witness for C1 at the spec's two-record example: `{minWaste: 60}`
with projection `household` keeps only record A, whose household figure
then becomes the combined figure. -/
theorem filterData_filters_before_projecting_witness :
    filterData [exRecordA, exRecordB]
        (some { region := none, confidence := none, minWaste := some 60,
                maxWaste := none, wasteType := some WasteType.household }) =
      [wasteRecord "A" 60 60 20 20 "X"] := by
  rw [filterData_filters_before_projecting [exRecordA, exRecordB] (some 60) none
    WasteType.household (by decide)]
  simp only [exRecordA, exRecordB, wasteRecord, withinWasteBounds, projectRecord,
    List.filter, List.map]

/-- The record of the idempotence counterexample: its original combined
figure (100) passes the `minWaste := 60` bound, but its household
figure (50) does not. -/
def idemRecord : FoodWasteData := wasteRecord "P" 100 50 10 10 "X"

/-- Criteria combining a numeric bound with a non-`combined` projection. -/
def idemOptions : FilterOptions :=
  { region := none, confidence := none, minWaste := some 60,
    maxWaste := none, wasteType := some WasteType.household }

lemma projectOptRecord_region (wt : Option WasteType) (item : FoodWasteData) :
    (projectOptRecord wt item).region = item.region := by
  cases wt with
  | none => rfl
  | some w => cases w <;> rfl

lemma projectOptRecord_confidence (wt : Option WasteType) (item : FoodWasteData) :
    (projectOptRecord wt item).confidenceInEstimate = item.confidenceInEstimate := by
  cases wt with
  | none => rfl
  | some w => cases w <;> rfl

lemma projectOptRecord_projectOptRecord (wt : Option WasteType) (item : FoodWasteData) :
    projectOptRecord wt (projectOptRecord wt item) = projectOptRecord wt item := by
  cases wt with
  | none => rfl
  | some w => cases w <;> rfl

/-- Counterexample to C2 as stated: with `{minWaste := 60, wasteType :=
household}` on a record whose combined figure is 100 but whose household
figure is 50, one application keeps the record (projected down to 50),
while a second application drops it, because the range filter of the
second run reads the already-projected figure. -/
theorem filterData_not_idempotent_cex :
    filterData (filterData [idemRecord] (some idemOptions)) (some idemOptions) ≠
      filterData [idemRecord] (some idemOptions) := by
  have h1 : filterData [idemRecord] (some idemOptions) =
      [wasteRecord "P" 50 50 10 10 "X"] := by
    rw [filterData_eq]
    simp only [idemRecord, idemOptions, wasteRecord, passesCriteria, regionPred,
      confidencePred, minWastePred, maxWastePred, projectOptRecord, projectRecord,
      List.filter, List.map]
  have h2 : filterData [wasteRecord "P" 50 50 10 10 "X"] (some idemOptions) = [] := by
    rw [filterData_eq]
    simp only [idemOptions, wasteRecord, passesCriteria, regionPred,
      confidencePred, minWastePred, maxWastePred, List.filter]
    norm_num
  rw [h1, h2]
  simp

/-- C2 amended: `filterData` is idempotent whenever the criteria do not
combine a non-`combined` waste-type projection with a numeric range
bound, i.e. whenever the projection is absent or `combined`, or both
`minWaste` and `maxWaste` are absent. -/
theorem filterData_idempotent_amended (data : List FoodWasteData) (opts : FilterOptions)
    (h : opts.wasteType = none ∨ opts.wasteType = some WasteType.combined ∨
      (opts.minWaste = none ∧ opts.maxWaste = none)) :
    filterData (filterData data (some opts)) (some opts) = filterData data (some opts) := by
  rw [filterData_eq, filterData_eq]
  have hmap : ∀ l : List FoodWasteData,
      (l.map (projectOptRecord opts.wasteType)).map (projectOptRecord opts.wasteType) =
        l.map (projectOptRecord opts.wasteType) := by
    intro l
    rw [List.map_map]
    exact List.map_congr_left (fun a _ => projectOptRecord_projectOptRecord _ a)
  have hid : ∀ wt : Option WasteType, wt = none ∨ wt = some WasteType.combined →
      ∀ l : List FoodWasteData, l.map (projectOptRecord wt) = l := by
    rintro wt (rfl | rfl) l <;>
      exact (List.map_congr_left (fun a _ => rfl)).trans (List.map_id l)
  rcases h with h | h | ⟨hmn, hmx⟩
  · rw [hid opts.wasteType (Or.inl h), hid opts.wasteType (Or.inl h), List.filter_filter]
    exact List.filter_congr (fun a _ => by cases passesCriteria opts a <;> rfl)
  · rw [hid opts.wasteType (Or.inr h), hid opts.wasteType (Or.inr h), List.filter_filter]
    exact List.filter_congr (fun a _ => by cases passesCriteria opts a <;> rfl)
  · have hpass : ∀ item, passesCriteria opts (projectOptRecord opts.wasteType item) =
        passesCriteria opts item := by
      intro item
      simp only [passesCriteria, regionPred, confidencePred, minWastePred, maxWastePred,
        hmn, hmx, projectOptRecord_region, projectOptRecord_confidence]
    rw [List.filter_map]
    have : (passesCriteria opts ∘ projectOptRecord opts.wasteType) = passesCriteria opts := by
      funext item
      exact hpass item
    rw [this, List.filter_filter]
    rw [List.filter_congr (fun a _ => by cases passesCriteria opts a <;> rfl : ∀ a ∈ data,
      (passesCriteria opts a && passesCriteria opts a) = passesCriteria opts a)]
    exact hmap _

/-- Witness for the amended C2 at concrete criteria (a numeric bound
with no projection). -/
theorem filterData_idempotent_amended_witness :
    filterData
        (filterData [exRecordA, exRecordB]
          (some { region := none, confidence := none, minWaste := some 60,
                  maxWaste := none, wasteType := none }))
        (some { region := none, confidence := none, minWaste := some 60,
                maxWaste := none, wasteType := none }) =
      filterData [exRecordA, exRecordB]
        (some { region := none, confidence := none, minWaste := some 60,
                maxWaste := none, wasteType := none }) :=
  filterData_idempotent_amended [exRecordA, exRecordB]
    { region := none, confidence := none, minWaste := some 60,
      maxWaste := none, wasteType := none } (Or.inl rfl)

/-- `[...new Set(xs)]` / first-visit insertion into a `Map`: keys in
first-occurrence order, no duplicates. -/
def jsSetDedup {α : Type} [BEq α] (l : List α) : List α :=
  l.foldl (fun acc x => if acc.contains x then acc else acc ++ [x]) []

lemma mem_foldl_dedup {α : Type} [BEq α] [LawfulBEq α] (l : List α) :
    ∀ (acc : List α) (x : α),
      x ∈ l.foldl (fun acc x => if acc.contains x then acc else acc ++ [x]) acc ↔
        x ∈ acc ∨ x ∈ l := by
  induction l with
  | nil => simp
  | cons y ys ih =>
      intro acc x
      simp only [List.foldl_cons]
      by_cases hy : acc.contains y
      · rw [if_pos hy, ih]
        have hmem : y ∈ acc := by
          simpa using hy
        constructor
        · rintro (hx | hx)
          · exact Or.inl hx
          · exact Or.inr (List.mem_cons_of_mem _ hx)
        · rintro (hx | hx)
          · exact Or.inl hx
          · rcases List.mem_cons.mp hx with rfl | hx
            · exact Or.inl hmem
            · exact Or.inr hx
      · rw [if_neg hy, ih]
        simp only [List.mem_append, List.mem_singleton, List.mem_cons]
        tauto

lemma mem_jsSetDedup {α : Type} [BEq α] [LawfulBEq α] (l : List α) (x : α) :
    x ∈ jsSetDedup l ↔ x ∈ l := by
  unfold jsSetDedup
  rw [mem_foldl_dedup]
  simp

lemma nodup_foldl_dedup {α : Type} [BEq α] [LawfulBEq α] (l : List α) :
    ∀ acc : List α, acc.Nodup →
      (l.foldl (fun acc x => if acc.contains x then acc else acc ++ [x]) acc).Nodup := by
  induction l with
  | nil => intro acc h; simpa using h
  | cons y ys ih =>
      intro acc h
      simp only [List.foldl_cons]
      by_cases hy : acc.contains y
      · rw [if_pos hy]
        exact ih acc h
      · rw [if_neg hy]
        apply ih
        have hmem : y ∉ acc := by
          simpa using hy
        simp [List.nodup_append, h, hmem]

lemma nodup_jsSetDedup {α : Type} [BEq α] [LawfulBEq α] (l : List α) :
    (jsSetDedup l).Nodup :=
  nodup_foldl_dedup l [] List.nodup_nil

/-- The per-region statistics block of `getRegionData` (the `for` loop
over one region's items, followed by the object literal). -/
def regionSummary (region : String) (regionItems : List FoodWasteData) : RegionData :=
  { region := region
    averageCombinedFigures :=
      (regionItems.foldl (fun s item => s + item.combinedFigures) 0) /
        (regionItems.length : ℚ)
    totalCountries := regionItems.length
    totalHouseholdWaste :=
      regionItems.foldl (fun s item => s + item.householdEstimatePerCapita) 0
    totalRetailWaste :=
      regionItems.foldl (fun s item => s + item.retailEstimatePerCapita) 0
    totalFoodServiceWaste :=
      regionItems.foldl (fun s item => s + item.foodServiceEstimatePerCapita) 0 }

/-- `getRegionData`: group by region through an insertion-ordered map,
compute the per-region summaries, then sort descending by
`averageCombinedFigures` (`(a, b) => b.averageCombinedFigures -
a.averageCombinedFigures`, a stable sort). -/
def getRegionData (data : List FoodWasteData) : List RegionData :=
  ((jsSetDedup (data.map (fun item => item.region))).map
      (fun region => regionSummary region (data.filter (fun item => item.region == region)))).mergeSort
    (fun a b => decide (b.averageCombinedFigures ≤ a.averageCombinedFigures))

lemma sum_map_add_nat {σ : Type} (l : List σ) (f g : σ → ℕ) :
    (l.map (fun x => f x + g x)).sum = (l.map f).sum + (l.map g).sum := by
  induction l with
  | nil => simp
  | cons x xs ih => simp [ih]; omega

lemma sum_indicator_not_mem {r : String} {ks : List String} (h : r ∉ ks) :
    (ks.map (fun k => if r = k then 1 else 0)).sum = 0 := by
  induction ks with
  | nil => simp
  | cons k ks ih =>
      simp only [List.mem_cons, not_or] at h
      simp [h.1, ih h.2]

lemma sum_indicator_nodup_mem {r : String} {ks : List String}
    (hnd : ks.Nodup) (hmem : r ∈ ks) :
    (ks.map (fun k => if r = k then 1 else 0)).sum = 1 := by
  induction ks with
  | nil => simp at hmem
  | cons k ks ih =>
      rcases List.mem_cons.mp hmem with rfl | hmem'
      · have : r ∉ ks := (List.nodup_cons.mp hnd).1
        simp [sum_indicator_not_mem this]
      · have hne : r ≠ k := by
          rintro rfl
          exact (List.nodup_cons.mp hnd).1 hmem'
        simp [hne, ih (List.nodup_cons.mp hnd).2 hmem']

lemma sum_filter_lengths (data : List FoodWasteData) (keys : List String)
    (hnd : keys.Nodup) (hcov : ∀ item ∈ data, item.region ∈ keys) :
    (keys.map (fun k => (data.filter (fun item => item.region == k)).length)).sum =
      data.length := by
  induction data with
  | nil => simp
  | cons it d ih =>
      have hpoint : ∀ k, ((it :: d).filter (fun item => item.region == k)).length =
          (if it.region = k then 1 else 0) +
            (d.filter (fun item => item.region == k)).length := by
        intro k
        rw [List.filter_cons]
        by_cases h : it.region = k
        · simp [h, Nat.add_comm]
        · simp [h]
      rw [List.map_congr_left (fun k _ => hpoint k), sum_map_add_nat,
        sum_indicator_nodup_mem hnd (hcov it (List.mem_cons_self it d)),
        ih (fun item hmem => hcov item (List.mem_cons_of_mem it hmem))]
      simp [Nat.add_comm]

/-- C3: on any non-empty input, `getRegionData` returns summaries sorted
non-increasing by `averageCombinedFigures`; the `totalCountries` counts
sum to the input length (every record is counted in exactly one region
group); and only regions occurring in the input appear. -/
theorem getRegionData_sorted_and_counts (data : List FoodWasteData)
    (_hne : data ≠ []) :
    List.Pairwise (fun a b => b.averageCombinedFigures ≤ a.averageCombinedFigures)
        (getRegionData data) ∧
      ((getRegionData data).map (fun s => s.totalCountries)).sum = data.length ∧
      ∀ s ∈ getRegionData data, s.region ∈ data.map (fun item => item.region) := by
  have hperm : getRegionData data |>.Perm
      ((jsSetDedup (data.map (fun item => item.region))).map
        (fun region => regionSummary region
          (data.filter (fun item => item.region == region)))) :=
    List.mergeSort_perm _ _
  refine ⟨?_, ?_, ?_⟩
  · have hsorted := @List.sorted_mergeSort RegionData
      (fun a b => decide (b.averageCombinedFigures ≤ a.averageCombinedFigures))
      (fun a b c hab hbc => by
        simp only [decide_eq_true_eq] at *
        exact le_trans hbc hab)
      (fun a b => by
        rcases le_total b.averageCombinedFigures a.averageCombinedFigures with h | h <;>
          simp [h])
      ((jsSetDedup (data.map (fun item => item.region))).map
        (fun region => regionSummary region
          (data.filter (fun item => item.region == region))))
    exact hsorted.imp (fun h => of_decide_eq_true h)
  · rw [((hperm.map (fun s => s.totalCountries))).sum_eq, List.map_map]
    have : ((fun s : RegionData => s.totalCountries) ∘
        (fun region => regionSummary region
          (data.filter (fun item => item.region == region)))) =
        fun k => (data.filter (fun item => item.region == k)).length := rfl
    rw [this]
    apply sum_filter_lengths data _ (nodup_jsSetDedup _)
    intro item hmem
    rw [mem_jsSetDedup]
    exact List.mem_map_of_mem _ hmem
  · intro s hs
    have hs' := hperm.mem_iff.mp hs
    rcases List.mem_map.mp hs' with ⟨k, hk, rfl⟩
    have : k ∈ data.map (fun item => item.region) := (mem_jsSetDedup _ _).mp hk
    exact this

/-- Witness for C3: the spec's two-record example has one region group
of two records, non-increasingly sorted, counts summing to 2. -/
theorem getRegionData_sorted_and_counts_witness :
    List.Pairwise (fun a b => b.averageCombinedFigures ≤ a.averageCombinedFigures)
        (getRegionData [exRecordA, exRecordB]) ∧
      ((getRegionData [exRecordA, exRecordB]).map (fun s => s.totalCountries)).sum = 2 ∧
      ∀ s ∈ getRegionData [exRecordA, exRecordB],
        s.region ∈ [exRecordA, exRecordB].map (fun item => item.region) :=
  getRegionData_sorted_and_counts [exRecordA, exRecordB] (by simp)

/-- ECMAScript `Array.prototype.slice(0, n)`: a non-negative end index
is clamped to the length; a negative end index counts from the end of
the array. -/
def jsSlice0 {α : Type} (count : ℤ) (l : List α) : List α :=
  if 0 ≤ count then l.take count.toNat
  else l.take ((l.length : ℤ) + count).toNat

/-- `getTopWasteCountries`: copy, stable-sort descending by
`combinedFigures`, then `slice(0, count)`. -/
def getTopWasteCountries (data : List FoodWasteData) (count : ℤ) : List FoodWasteData :=
  jsSlice0 count
    (data.mergeSort (fun a b => decide (b.combinedFigures ≤ a.combinedFigures)))

/-- Counterexample to C4 as stated: `count = -1 ≤ 0` does not give an
empty result on a two-record input; `slice(0, -1)` keeps everything but
the last element. -/
theorem getTopWasteCountries_nonpos_cex :
    ((-1 : ℤ) ≤ 0) ∧ getTopWasteCountries [exRecordA, exRecordB] (-1) ≠ [] := by
  refine ⟨by decide, ?_⟩
  intro hcontra
  have hlen : (getTopWasteCountries [exRecordA, exRecordB] (-1)).length = 1 := by
    unfold getTopWasteCountries jsSlice0
    rw [if_neg (by decide)]
    simp [List.length_take, List.length_mergeSort]
  rw [hcontra] at hlen
  simp at hlen

/-- C4 amended: `getTopWasteCountries data n` is empty for `n = 0` (and,
more generally, `slice` drops `|n|` records from the end of the sorted
list for negative `n`, so the result is empty only when `|n| ≥ length`);
for `n ≥ length` it returns all records, sorted descending by
`combinedFigures`. -/
theorem getTopWasteCountries_amended (data : List FoodWasteData) (n : ℤ) :
    (n = 0 → getTopWasteCountries data n = []) ∧
      ((data.length : ℤ) ≤ n →
        (getTopWasteCountries data n).Perm data ∧
          List.Pairwise (fun a b => b.combinedFigures ≤ a.combinedFigures)
            (getTopWasteCountries data n)) ∧
      (n < 0 → getTopWasteCountries data n =
        (data.mergeSort (fun a b => decide (b.combinedFigures ≤ a.combinedFigures))).take
          (((data.length : ℤ) + n).toNat)) := by
  refine ⟨?_, ?_, ?_⟩
  · rintro rfl
    unfold getTopWasteCountries jsSlice0
    simp
  · intro hlen
    have h0 : 0 ≤ n := le_trans (by positivity) hlen
    have hall : getTopWasteCountries data n =
        data.mergeSort (fun a b => decide (b.combinedFigures ≤ a.combinedFigures)) := by
      unfold getTopWasteCountries jsSlice0
      rw [if_pos h0]
      apply List.take_of_length_le
      rw [List.length_mergeSort]
      omega
    rw [hall]
    refine ⟨List.mergeSort_perm _ _, ?_⟩
    have hsorted := @List.sorted_mergeSort FoodWasteData
      (fun a b => decide (b.combinedFigures ≤ a.combinedFigures))
      (fun a b c hab hbc => by
        simp only [decide_eq_true_eq] at *
        exact le_trans hbc hab)
      (fun a b => by
        rcases le_total b.combinedFigures a.combinedFigures with h | h <;> simp [h])
      data
    exact hsorted.imp (fun h => of_decide_eq_true h)
  · intro hneg
    unfold getTopWasteCountries jsSlice0
    rw [if_neg (by omega), List.length_mergeSort]

/-- Witness for the amended C4 at `n = 0`, `n = 3 ≥ length`, and
`n = -1 < 0` on the two-record example. -/
theorem getTopWasteCountries_amended_witness :
    (getTopWasteCountries [exRecordA, exRecordB] 0 = []) ∧
      (getTopWasteCountries [exRecordA, exRecordB] 3).Perm [exRecordA, exRecordB] ∧
      getTopWasteCountries [exRecordA, exRecordB] (-1) =
        ([exRecordA, exRecordB].mergeSort
          (fun a b => decide (b.combinedFigures ≤ a.combinedFigures))).take 1 :=
  ⟨(getTopWasteCountries_amended [exRecordA, exRecordB] 0).1 rfl,
    ((getTopWasteCountries_amended [exRecordA, exRecordB] 3).2.1 (by norm_num)).1,
    (getTopWasteCountries_amended [exRecordA, exRecordB] (-1)).2.2 (by norm_num)⟩

/-- The arrow function inside `getComparisonData`: compute the source
total and the three shares.  (In the source a zero total yields `NaN`
shares; in this rational model division by zero yields `0` — both are
junk values documented as a caller precondition.) -/
def comparisonEntry (item : FoodWasteData) : ComparisonData :=
  let total := item.householdEstimatePerCapita + item.retailEstimatePerCapita +
    item.foodServiceEstimatePerCapita
  { country := item.country
    combinedFigures := item.combinedFigures
    wasteSources :=
      { household := item.householdEstimatePerCapita / total
        retail := item.retailEstimatePerCapita / total
        foodService := item.foodServiceEstimatePerCapita / total } }

/-- `getComparisonData(data, countries)`: keep the records whose country
is in the requested list (in record order), then build the entries. -/
def getComparisonData (data : List FoodWasteData) (countries : List String) :
    List ComparisonData :=
  (data.filter (fun item => countries.contains item.country)).map comparisonEntry

/-- Counterexample to C5 as stated: with the records stored in order
`[B, A]` and the request `["A", "B"]`, the output is in record order
`B, A`, not in the requested order `A, B`. -/
theorem getComparisonData_order_cex :
    (getComparisonData [exRecordB, exRecordA] ["A", "B"]).map (fun e => e.country) =
        ["B", "A"] ∧
      (getComparisonData [exRecordB, exRecordA] ["A", "B"]).map (fun e => e.country) ≠
        ["A", "B"] := by
  have h : (getComparisonData [exRecordB, exRecordA] ["A", "B"]).map (fun e => e.country) =
      ["B", "A"] := by
    simp [getComparisonData, comparisonEntry, exRecordA, exRecordB, wasteRecord,
      List.filter]
  refine ⟨h, ?_⟩
  rw [h]
  simp

/-- C5 amended: the entries of `getComparisonData` follow the record
list's order (the output country sequence is a sublist of the input
country sequence), and a name appears in the output iff it is both
requested and present in the records; requested names absent from the
records are silently skipped. -/
theorem getComparisonData_order_amended (data : List FoodWasteData)
    (countries : List String) :
    ((getComparisonData data countries).map (fun e => e.country)).Sublist
        (data.map (fun item => item.country)) ∧
      ∀ name, name ∈ (getComparisonData data countries).map (fun e => e.country) ↔
        name ∈ countries ∧ name ∈ data.map (fun item => item.country) := by
  have hmap : (getComparisonData data countries).map (fun e => e.country) =
      (data.filter (fun item => countries.contains item.country)).map
        (fun item => item.country) := by
    unfold getComparisonData
    rw [List.map_map]
    rfl
  constructor
  · rw [hmap]
    exact (List.filter_sublist data).map _
  · intro name
    rw [hmap]
    constructor
    · intro hmem
      rcases List.mem_map.mp hmem with ⟨item, hitem, rfl⟩
      rcases List.mem_filter.mp hitem with ⟨hdata, hpass⟩
      refine ⟨by simpa using hpass, List.mem_map_of_mem _ hdata⟩
    · rintro ⟨hreq, hpresent⟩
      rcases List.mem_map.mp hpresent with ⟨item, hitem, rfl⟩
      exact List.mem_map_of_mem _
        (List.mem_filter.mpr ⟨hitem, by simpa using hreq⟩)

/-- C6: for a requested record whose three per-capita source figures are
non-negative (the data-model invariant) and not all zero, the entry
produced by `getComparisonData` has shares equal to each source figure
divided by the source total, and the three shares sum to exactly 1. -/
theorem getComparisonData_shares_sum_one (data : List FoodWasteData)
    (countries : List String) (item : FoodWasteData)
    (hmem : item ∈ data) (hreq : item.country ∈ countries)
    (hh : 0 ≤ item.householdEstimatePerCapita)
    (hr : 0 ≤ item.retailEstimatePerCapita)
    (hf : 0 ≤ item.foodServiceEstimatePerCapita)
    (hnz : ¬(item.householdEstimatePerCapita = 0 ∧ item.retailEstimatePerCapita = 0 ∧
      item.foodServiceEstimatePerCapita = 0)) :
    comparisonEntry item ∈ getComparisonData data countries ∧
      (comparisonEntry item).wasteSources.household =
        item.householdEstimatePerCapita / (item.householdEstimatePerCapita +
          item.retailEstimatePerCapita + item.foodServiceEstimatePerCapita) ∧
      (comparisonEntry item).wasteSources.retail =
        item.retailEstimatePerCapita / (item.householdEstimatePerCapita +
          item.retailEstimatePerCapita + item.foodServiceEstimatePerCapita) ∧
      (comparisonEntry item).wasteSources.foodService =
        item.foodServiceEstimatePerCapita / (item.householdEstimatePerCapita +
          item.retailEstimatePerCapita + item.foodServiceEstimatePerCapita) ∧
      (comparisonEntry item).wasteSources.household +
          (comparisonEntry item).wasteSources.retail +
          (comparisonEntry item).wasteSources.foodService = 1 := by
  have htot : item.householdEstimatePerCapita + item.retailEstimatePerCapita +
      item.foodServiceEstimatePerCapita ≠ 0 := by
    intro h0
    exact hnz ⟨by linarith, by linarith, by linarith⟩
  refine ⟨?_, rfl, rfl, rfl, ?_⟩
  · exact List.mem_map_of_mem _ (List.mem_filter.mpr ⟨hmem, by simpa using hreq⟩)
  · show item.householdEstimatePerCapita / _ + item.retailEstimatePerCapita / _ +
      item.foodServiceEstimatePerCapita / _ = 1
    field_simp

/-- Witness for C6 at record A of the spec's example: shares
`0.6, 0.2, 0.2` sum to 1. -/
theorem getComparisonData_shares_sum_one_witness :
    comparisonEntry exRecordA ∈ getComparisonData [exRecordA, exRecordB] ["A", "B"] ∧
      (comparisonEntry exRecordA).wasteSources.household =
        exRecordA.householdEstimatePerCapita / (exRecordA.householdEstimatePerCapita +
          exRecordA.retailEstimatePerCapita + exRecordA.foodServiceEstimatePerCapita) ∧
      (comparisonEntry exRecordA).wasteSources.retail =
        exRecordA.retailEstimatePerCapita / (exRecordA.householdEstimatePerCapita +
          exRecordA.retailEstimatePerCapita + exRecordA.foodServiceEstimatePerCapita) ∧
      (comparisonEntry exRecordA).wasteSources.foodService =
        exRecordA.foodServiceEstimatePerCapita / (exRecordA.householdEstimatePerCapita +
          exRecordA.retailEstimatePerCapita + exRecordA.foodServiceEstimatePerCapita) ∧
      (comparisonEntry exRecordA).wasteSources.household +
          (comparisonEntry exRecordA).wasteSources.retail +
          (comparisonEntry exRecordA).wasteSources.foodService = 1 :=
  getComparisonData_shares_sum_one [exRecordA, exRecordB] ["A", "B"] exRecordA
    (by simp) (by simp [exRecordA, wasteRecord]) (by norm_num [exRecordA, wasteRecord])
    (by norm_num [exRecordA, wasteRecord]) (by norm_num [exRecordA, wasteRecord])
    (by norm_num [exRecordA, wasteRecord])

structure TrendDataPoint where
  year : ℤ
  combinedFigures : ℚ
  householdEstimatePerCapita : ℚ
  retailEstimatePerCapita : ℚ
  foodServiceEstimatePerCapita : ℚ
  deriving DecidableEq

structure CountryTrendData where
  country : String
  region : String
  trendData : List TrendDataPoint
  deriving DecidableEq

/-- `Number((x).toFixed(1))`: exact rounding to one decimal place, ties
towards `+∞` (`toFixed` picks the larger candidate on a tie). -/
def roundTo1 (x : ℚ) : ℚ := (round (x * 10) : ℚ) / 10

/-- One iteration of the year loop in `generateTrendData`: `yearFactor =
1 + yearDiff * 0.05`, one shared `randomFactor` (drawn from
`[0.95, 1.05]` in the source, injected here) scaling all four metrics,
each rounded to one decimal. -/
def buildTrendPoint (country : FoodWasteData) (currentYear year : ℤ)
    (randomFactor : ℚ) : TrendDataPoint :=
  let yearDiff : ℤ := currentYear - year
  let yearFactor : ℚ := 1 + (yearDiff : ℚ) * (5 / 100)
  { year := year
    combinedFigures := roundTo1 (country.combinedFigures * yearFactor * randomFactor)
    householdEstimatePerCapita :=
      roundTo1 (country.householdEstimatePerCapita * yearFactor * randomFactor)
    retailEstimatePerCapita :=
      roundTo1 (country.retailEstimatePerCapita * yearFactor * randomFactor)
    foodServiceEstimatePerCapita :=
      roundTo1 (country.foodServiceEstimatePerCapita * yearFactor * randomFactor) }

/-- The body of the `currentData.map` in `generateTrendData`: the year
loop runs from `startYear` to `currentYear` (zero iterations when
`startYear > currentYear`), then the points are sorted chronologically
(`(a, b) => a.year - b.year`). -/
def generateCountryTrend (country : FoodWasteData) (years : ℤ) (currentYear : ℤ)
    (rand : ℕ → ℚ) : CountryTrendData :=
  let startYear := currentYear - years + 1
  let trendData := (List.range (currentYear - startYear + 1).toNat).map
    (fun (k : ℕ) => buildTrendPoint country currentYear (startYear + (k : ℤ)) (rand k))
  { country := country.country
    region := country.region
    trendData := trendData.mergeSort (fun a b => decide (a.year ≤ b.year)) }

/-- `generateTrendData(currentData, years = 5)`.  The ambient current
year and the per-point `Math.random()` draws are injected: `rand i k` is
the factor drawn for point `k` of the `i`-th record. -/
def generateTrendData (currentData : List FoodWasteData) (years : ℤ)
    (currentYear : ℤ) (rand : ℕ → ℕ → ℚ) : List CountryTrendData :=
  currentData.enum.map (fun ic => generateCountryTrend ic.2 years currentYear (rand ic.1))

lemma generateCountryTrend_nonpos (country : FoodWasteData) (years : ℤ)
    (currentYear : ℤ) (rand : ℕ → ℚ) (hy : years ≤ 0) :
    generateCountryTrend country years currentYear rand =
      { country := country.country, region := country.region, trendData := [] } := by
  have hcount : (currentYear - (currentYear - years + 1) + 1).toNat = 0 := by omega
  simp only [generateCountryTrend, hcount]
  simp

lemma enum_map_index_free {α β : Type} (l : List α) (f : ℕ → α → β) (g : α → β)
    (hf : ∀ i a, f i a = g a) :
    l.enum.map (fun ic => f ic.1 ic.2) = l.map g := by
  have haux : ∀ (n : ℕ) (l : List α),
      (List.enumFrom n l).map (fun ic => f ic.1 ic.2) = l.map g := by
    intro n l
    induction l generalizing n with
    | nil => rfl
    | cons x xs ih =>
        rw [show List.enumFrom n (x :: xs) = (n, x) :: List.enumFrom (n + 1) xs from rfl,
          List.map_cons, List.map_cons, ih (n + 1)]
        rw [show f (n, x).1 (n, x).2 = g x from hf n x]
  exact haux 0 l

/-- C7 (behavior at the failing input): `generateTrendData` does not
fail on `yearsBack < 1`; the year loop simply runs zero times, and the
function silently returns one series per record with an empty point
list — no `InvalidArgument`-style failure exists anywhere in the code
path. -/
theorem generateTrendData_nonpos_years_silent (currentData : List FoodWasteData)
    (years currentYear : ℤ) (rand : ℕ → ℕ → ℚ) (hy : years ≤ 0) :
    generateTrendData currentData years currentYear rand =
      currentData.map (fun c =>
        { country := c.country, region := c.region, trendData := [] }) := by
  unfold generateTrendData
  exact enum_map_index_free currentData _ _
    (fun i a => generateCountryTrend_nonpos a years currentYear (rand i) hy)

/-- Witness for C7's failing input `yearsBack = 0` on the two-record
example: two series, both with empty point lists, and no error. -/
theorem generateTrendData_nonpos_years_silent_witness :
    generateTrendData [exRecordA, exRecordB] 0 2025 (fun _ _ => 1) =
      [{ country := "A", region := "X", trendData := [] },
        { country := "B", region := "X", trendData := [] }] := by
  rw [generateTrendData_nonpos_years_silent [exRecordA, exRecordB] 0 2025
    (fun _ _ => 1) le_rfl]
  simp [exRecordA, exRecordB, wasteRecord]

lemma buildTrendPoint_year (country : FoodWasteData) (currentYear year : ℤ)
    (randomFactor : ℚ) :
    (buildTrendPoint country currentYear year randomFactor).year = year := rfl

lemma generateCountryTrend_five (c : FoodWasteData) (cy : ℤ) (r : ℕ → ℚ) :
    (generateCountryTrend c 5 cy r).trendData =
      [buildTrendPoint c cy (cy - 4) (r 0),
        buildTrendPoint c cy (cy - 3) (r 1),
        buildTrendPoint c cy (cy - 2) (r 2),
        buildTrendPoint c cy (cy - 1) (r 3),
        buildTrendPoint c cy cy (r 4)] := by
  simp only [generateCountryTrend]
  have hcount : (cy - (cy - 5 + 1) + 1).toNat = 5 := by omega
  rw [hcount]
  rw [show List.range 5 = [0, 1, 2, 3, 4] from rfl]
  simp only [List.map_cons, List.map_nil]
  have hsorted : List.Pairwise (fun a b : TrendDataPoint => decide (a.year ≤ b.year) = true)
      [buildTrendPoint c cy (cy - 5 + 1 + ((0 : ℕ) : ℤ)) (r 0),
        buildTrendPoint c cy (cy - 5 + 1 + ((1 : ℕ) : ℤ)) (r 1),
        buildTrendPoint c cy (cy - 5 + 1 + ((2 : ℕ) : ℤ)) (r 2),
        buildTrendPoint c cy (cy - 5 + 1 + ((3 : ℕ) : ℤ)) (r 3),
        buildTrendPoint c cy (cy - 5 + 1 + ((4 : ℕ) : ℤ)) (r 4)] := by
    simp [List.pairwise_cons, buildTrendPoint_year]
  rw [List.mergeSort_of_sorted hsorted]
  have e0 : cy - 5 + 1 + ((0 : ℕ) : ℤ) = cy - 4 := by push_cast; ring
  have e1 : cy - 5 + 1 + ((1 : ℕ) : ℤ) = cy - 3 := by push_cast; ring
  have e2 : cy - 5 + 1 + ((2 : ℕ) : ℤ) = cy - 2 := by push_cast; ring
  have e3 : cy - 5 + 1 + ((3 : ℕ) : ℤ) = cy - 1 := by push_cast; ring
  have e4 : cy - 5 + 1 + ((4 : ℕ) : ℤ) = cy := by push_cast; ring
  rw [e0, e1, e2, e3, e4]

/-- C8: `generateTrendData(records, 5)` yields one series per record;
each series has exactly 5 points, with strictly ascending years spanning
the five years ending at the current year, and the present-year point
equals the record's four metrics scaled by that point's random factor
only (`yearFactor = 1` at `yearDiff = 0`), each rounded to one
decimal. -/
theorem generateTrendData_five_points (data : List FoodWasteData) (cy : ℤ)
    (rand : ℕ → ℕ → ℚ) (i : ℕ) (c : FoodWasteData) (s : CountryTrendData)
    (hc : data[i]? = some c)
    (hs : (generateTrendData data 5 cy rand)[i]? = some s) :
    (generateTrendData data 5 cy rand).length = data.length ∧
      s.country = c.country ∧
      s.trendData.length = 5 ∧
      s.trendData.map (fun p => p.year) = [cy - 4, cy - 3, cy - 2, cy - 1, cy] ∧
      List.Chain' (fun p q => p.year < q.year) s.trendData ∧
      s.trendData.getLast? = some
        { year := cy
          combinedFigures := roundTo1 (c.combinedFigures * rand i 4)
          householdEstimatePerCapita :=
            roundTo1 (c.householdEstimatePerCapita * rand i 4)
          retailEstimatePerCapita := roundTo1 (c.retailEstimatePerCapita * rand i 4)
          foodServiceEstimatePerCapita :=
            roundTo1 (c.foodServiceEstimatePerCapita * rand i 4) } := by
  have hsval : s = generateCountryTrend c 5 cy (rand i) := by
    unfold generateTrendData at hs
    rw [List.getElem?_map, List.getElem?_enum, hc] at hs
    simp only [Option.map_some'] at hs
    exact (Option.some.injEq _ _).mp hs.symm
  subst hsval
  refine ⟨?_, rfl, ?_, ?_, ?_, ?_⟩
  · unfold generateTrendData
    rw [List.length_map, List.enum_length]
  · rw [generateCountryTrend_five]
    rfl
  · rw [generateCountryTrend_five]
    simp [buildTrendPoint_year]
  · rw [generateCountryTrend_five]
    simp [List.chain'_cons, buildTrendPoint_year]
  · rw [generateCountryTrend_five]
    have hz : ((cy - cy : ℤ) : ℚ) = 0 := by
      norm_num
    simp only [List.getLast?, buildTrendPoint, hz]
    norm_num

lemma countryTrendData_ext {a b : CountryTrendData} (h1 : a.country = b.country)
    (h2 : a.region = b.region) (h3 : a.trendData = b.trendData) : a = b := by
  cases a
  cases b
  simp_all

/-- The series generated for record A with current year 2025 and all
random factors fixed to 1: metrics scale by 1.2, 1.15, 1.1, 1.05, 1. -/
def exTrendSeriesA : CountryTrendData :=
  { country := "A"
    region := "X"
    trendData :=
      [{ year := 2021, combinedFigures := 120, householdEstimatePerCapita := 72,
          retailEstimatePerCapita := 24, foodServiceEstimatePerCapita := 24 },
        { year := 2022, combinedFigures := 115, householdEstimatePerCapita := 69,
          retailEstimatePerCapita := 23, foodServiceEstimatePerCapita := 23 },
        { year := 2023, combinedFigures := 110, householdEstimatePerCapita := 66,
          retailEstimatePerCapita := 22, foodServiceEstimatePerCapita := 22 },
        { year := 2024, combinedFigures := 105, householdEstimatePerCapita := 63,
          retailEstimatePerCapita := 21, foodServiceEstimatePerCapita := 21 },
        { year := 2025, combinedFigures := 100, householdEstimatePerCapita := 60,
          retailEstimatePerCapita := 20, foodServiceEstimatePerCapita := 20 }] }

lemma generateCountryTrend_exRecordA :
    generateCountryTrend exRecordA 5 2025 (fun _ => 1) = exTrendSeriesA := by
  refine countryTrendData_ext ?_ ?_ ?_
  · rfl
  · rfl
  rw [generateCountryTrend_five]
  show _ = exTrendSeriesA.trendData
  simp only [buildTrendPoint, exRecordA, wasteRecord, exTrendSeriesA, roundTo1]
  norm_num [round_eq]

/-- Witness for C8 at record A, current year 2025, all random factors 1. -/
theorem generateTrendData_five_points_witness :
    (generateTrendData [exRecordA] 5 2025 (fun _ _ => 1)).length = 1 ∧
      exTrendSeriesA.country = exRecordA.country ∧
      exTrendSeriesA.trendData.length = 5 ∧
      exTrendSeriesA.trendData.map (fun p => p.year) = [2021, 2022, 2023, 2024, 2025] ∧
      List.Chain' (fun p q => p.year < q.year) exTrendSeriesA.trendData ∧
      exTrendSeriesA.trendData.getLast? = some
        { year := 2025
          combinedFigures := roundTo1 (exRecordA.combinedFigures * 1)
          householdEstimatePerCapita := roundTo1 (exRecordA.householdEstimatePerCapita * 1)
          retailEstimatePerCapita := roundTo1 (exRecordA.retailEstimatePerCapita * 1)
          foodServiceEstimatePerCapita :=
            roundTo1 (exRecordA.foodServiceEstimatePerCapita * 1) } := by
  have heval : (generateTrendData [exRecordA] 5 2025 (fun _ _ => 1))[0]? =
      some exTrendSeriesA := by
    have hg : generateTrendData [exRecordA] 5 2025 (fun _ _ => 1) =
        [generateCountryTrend exRecordA 5 2025 (fun k => 1)] := rfl
    rw [hg, generateCountryTrend_exRecordA]
    rfl
  obtain ⟨h1, h2, h3, h4, h5, h6⟩ :=
    generateTrendData_five_points [exRecordA] 2025 (fun _ _ => 1) 0 exRecordA
      exTrendSeriesA rfl heval
  refine ⟨by simpa using h1, h2, h3, ?_, h5, by simpa using h6⟩
  rw [h4]
  norm_num

/-- Code-unit lexicographic "less than" on strings as character lists:
ECMAScript's ordering used by `Array.prototype.sort()` when no
comparator is given (elements compared via `ToString`). -/
def lexLtChars : List Char → List Char → Bool
  | [], [] => false
  | [], _ :: _ => true
  | _ :: _, [] => false
  | a :: as, b :: bs =>
      decide (a.toNat < b.toNat) ||
        (decide (a.toNat = b.toNat) && lexLtChars as bs)

/-- `SortCompare` for numbers under the default (comparator-less)
`sort()`: `a` precedes or ties `b` iff `String(b) < String(a)` fails. -/
def jsNumLe (a b : ℤ) : Bool :=
  !(lexLtChars (toString b).data (toString a).data)

/-- `[...].sort()` on integers: stable sort in string order. -/
def jsSortIntsDefault (l : List ℤ) : List ℤ :=
  l.mergeSort (fun a b => jsNumLe a b)

lemma lexLtChars_asymm : ∀ a b : List Char,
    lexLtChars a b = true → lexLtChars b a = false := by
  intro a
  induction a with
  | nil =>
      intro b h
      cases b with
      | nil => simp [lexLtChars] at h
      | cons y ys => rfl
  | cons x xs ih =>
      intro b h
      cases b with
      | nil => simp [lexLtChars] at h
      | cons y ys =>
          simp only [lexLtChars, Bool.or_eq_true, Bool.and_eq_true,
            decide_eq_true_eq] at h
          simp only [lexLtChars, Bool.or_eq_false_iff, Bool.and_eq_false_iff,
            decide_eq_false_iff_not]
          rcases h with h | ⟨heq, hlt⟩
          · exact ⟨by omega, Or.inl (by omega)⟩
          · exact ⟨by omega, Or.inr (ih ys hlt)⟩

lemma lexLtChars_of_lt_of_not_lt : ∀ a b c : List Char,
    lexLtChars c a = true → lexLtChars c b = false → lexLtChars b a = true := by
  intro a
  induction a with
  | nil =>
      intro b c h _
      cases c with
      | nil => simp [lexLtChars] at h
      | cons z zs => simp [lexLtChars] at h
  | cons x xs ih =>
      intro b c h hcb
      cases c with
      | nil =>
          cases b with
          | nil => rfl
          | cons y ys => simp [lexLtChars] at hcb
      | cons z zs =>
          cases b with
          | nil => rfl
          | cons y ys =>
              simp only [lexLtChars, Bool.or_eq_true, Bool.and_eq_true,
                decide_eq_true_eq] at h
              simp only [lexLtChars, Bool.or_eq_false_iff, Bool.and_eq_false_iff,
                decide_eq_false_iff_not] at hcb
              simp only [lexLtChars, Bool.or_eq_true, Bool.and_eq_true,
                decide_eq_true_eq]
              obtain ⟨hzy, hrest⟩ := hcb
              rcases h with h | ⟨heq, hlt⟩
              · exact Or.inl (by omega)
              · rcases Nat.lt_or_ge y.toNat z.toNat with hy | hy
                · exact Or.inl (by omega)
                · have hyz : y.toNat = z.toNat := by omega
                  have hys : lexLtChars zs ys = false := by
                    rcases hrest with hne | hys
                    · exact absurd hyz.symm hne
                    · exact hys
                  exact Or.inr ⟨by omega, ih ys zs hlt hys⟩

lemma jsNumLe_trans (a b c : ℤ) (h1 : jsNumLe a b = true) (h2 : jsNumLe b c = true) :
    jsNumLe a c = true := by
  unfold jsNumLe at *
  rw [Bool.not_eq_true'] at h1 h2 ⊢
  by_contra hcontra
  rw [Bool.not_eq_false] at hcontra
  exact absurd (lexLtChars_of_lt_of_not_lt _ _ _ hcontra h2) (by rw [h1]; simp)

lemma jsNumLe_total (a b : ℤ) : (jsNumLe a b || jsNumLe b a) = true := by
  unfold jsNumLe
  by_cases h : lexLtChars (toString b).data (toString a).data = true
  · rw [lexLtChars_asymm _ _ h]
    simp
  · rw [Bool.not_eq_true] at h
    rw [h]
    simp

/-- The `yearDataPoints` of `getGlobalTrendData`: all points of all
series carrying the given year. -/
def yearPoints (trendData : List CountryTrendData) (year : ℤ) : List TrendDataPoint :=
  trendData.flatMap (fun country => country.trendData.filter (fun point => point.year == year))

/-- Spec-shaped helper: the series that contain a point for the year. -/
def contributingSeries (trendData : List CountryTrendData) (year : ℤ) :
    List CountryTrendData :=
  trendData.filter (fun country => country.trendData.any (fun point => point.year == year))

/-- The body of the `years.map` in `getGlobalTrendData`: sum each metric
over that year's points and divide by their count, rounding to one
decimal. -/
def globalTrendPoint (trendData : List CountryTrendData) (year : ℤ) : TrendDataPoint :=
  let yearDataPoints := yearPoints trendData year
  let count : ℚ := (yearDataPoints.length : ℚ)
  { year := year
    combinedFigures :=
      roundTo1 ((yearDataPoints.foldl (fun s p => s + p.combinedFigures) 0) / count)
    householdEstimatePerCapita :=
      roundTo1 ((yearDataPoints.foldl (fun s p => s + p.householdEstimatePerCapita) 0) / count)
    retailEstimatePerCapita :=
      roundTo1 ((yearDataPoints.foldl (fun s p => s + p.retailEstimatePerCapita) 0) / count)
    foodServiceEstimatePerCapita :=
      roundTo1 ((yearDataPoints.foldl (fun s p => s + p.foodServiceEstimatePerCapita) 0) / count) }

/-- `getGlobalTrendData`: distinct years across all series
(`[...new Set(...)]`, insertion order), sorted by the comparator-less
`sort()` (string order), then one averaged point per year. -/
def getGlobalTrendData (trendData : List CountryTrendData) : List TrendDataPoint :=
  let years := jsSortIntsDefault
    (jsSetDedup (trendData.flatMap (fun country => country.trendData.map (fun point => point.year))))
  years.map (fun year => globalTrendPoint trendData year)

/-- `getRegionalTrendData`: filter the series by region, then reduce
exactly as the global reducer does. -/
def getRegionalTrendData (trendData : List CountryTrendData) (region : String) :
    List TrendDataPoint :=
  getGlobalTrendData (trendData.filter (fun country => country.region == region))

lemma foldl_add_eq_sum {σ : Type} (f : σ → ℚ) : ∀ (l : List σ) (a : ℚ),
    l.foldl (fun s x => s + f x) a = a + (l.map f).sum := by
  intro l
  induction l with
  | nil => intro a; simp
  | cons x xs ih =>
      intro a
      simp [ih, add_assoc]

lemma map_year_getGlobalTrendData (trendData : List CountryTrendData) :
    (getGlobalTrendData trendData).map (fun p => p.year) =
      jsSortIntsDefault
        (jsSetDedup (trendData.flatMap
          (fun country => country.trendData.map (fun point => point.year)))) := by
  unfold getGlobalTrendData
  rw [List.map_map]
  exact List.map_id _

lemma filter_year_length_of_nodup (pts : List TrendDataPoint) (y : ℤ)
    (h : (pts.map (fun p => p.year)).Nodup) :
    (pts.filter (fun p => p.year == y)).length =
      if pts.any (fun p => p.year == y) then 1 else 0 := by
  induction pts with
  | nil => rfl
  | cons p ps ih =>
      simp only [List.map_cons, List.nodup_cons] at h
      obtain ⟨hnotin, hnd⟩ := h
      rw [List.filter_cons]
      by_cases hp : p.year = y
      · have hnone : ps.filter (fun q => q.year == y) = [] := by
          rw [List.filter_eq_nil_iff]
          intro q hq
          simp only [beq_iff_eq]
          intro hqy
          exact hnotin (hqy.trans hp.symm ▸ List.mem_map_of_mem (fun r => r.year) hq)
        simp [hp, hnone]
      · rw [if_neg (by simp [hp]), ih hnd]
        simp [List.any_cons, hp]

lemma yearPoints_length_eq_contributing (trendData : List CountryTrendData) (y : ℤ)
    (hnd : ∀ country ∈ trendData, (country.trendData.map (fun p => p.year)).Nodup) :
    (yearPoints trendData y).length = (contributingSeries trendData y).length := by
  induction trendData with
  | nil => rfl
  | cons c cs ih =>
      unfold yearPoints contributingSeries
      rw [List.flatMap_cons, List.length_append, List.filter_cons]
      have hc := filter_year_length_of_nodup c.trendData y (hnd c (List.mem_cons_self c cs))
      have ihc : (yearPoints cs y).length = (contributingSeries cs y).length :=
        ih (fun country hm => hnd country (List.mem_cons_of_mem c hm))
      unfold yearPoints contributingSeries at ihc
      by_cases hany : c.trendData.any (fun point => point.year == y)
      · rw [hc, if_pos hany, if_pos hany, ihc]
        simp [Nat.add_comm]
      · rw [hc, if_neg hany, if_neg hany, ihc]
        simp

/-- Series X of the reducer counterexample: one point at year 999. -/
def trendSeriesX : CountryTrendData :=
  { country := "X"
    region := "R"
    trendData :=
      [{ year := 999, combinedFigures := 1, householdEstimatePerCapita := 1,
          retailEstimatePerCapita := 1, foodServiceEstimatePerCapita := 1 }] }

/-- Series Y of the reducer counterexample: points at years 999 and
1000. -/
def trendSeriesY : CountryTrendData :=
  { country := "Y"
    region := "R"
    trendData :=
      [{ year := 999, combinedFigures := 3 / 2, householdEstimatePerCapita := 3 / 2,
          retailEstimatePerCapita := 3 / 2, foodServiceEstimatePerCapita := 3 / 2 },
        { year := 1000, combinedFigures := 2, householdEstimatePerCapita := 2,
          retailEstimatePerCapita := 2, foodServiceEstimatePerCapita := 2 }] }

lemma getGlobalTrendData_xy_eval :
    getGlobalTrendData [trendSeriesX, trendSeriesY] =
      [{ year := 1000, combinedFigures := 2, householdEstimatePerCapita := 2,
          retailEstimatePerCapita := 2, foodServiceEstimatePerCapita := 2 },
        { year := 999, combinedFigures := 13 / 10, householdEstimatePerCapita := 13 / 10,
          retailEstimatePerCapita := 13 / 10, foodServiceEstimatePerCapita := 13 / 10 }] := by
  have hdedup : jsSetDedup ([trendSeriesX, trendSeriesY].flatMap
      (fun country => country.trendData.map (fun point => point.year))) = [999, 1000] := by
    decide
  have hyears : jsSortIntsDefault [999, 1000] = [1000, 999] := by
    have h1 : jsNumLe 999 1000 = false := by decide
    have h2 : jsNumLe 1000 999 = true := by decide
    simp [jsSortIntsDefault, List.mergeSort, h1, h2]
  have hyp1 : yearPoints [trendSeriesX, trendSeriesY] 1000 =
      [{ year := 1000, combinedFigures := 2, householdEstimatePerCapita := 2,
          retailEstimatePerCapita := 2, foodServiceEstimatePerCapita := 2 }] := rfl
  have hyp2 : yearPoints [trendSeriesX, trendSeriesY] 999 =
      [{ year := 999, combinedFigures := 1, householdEstimatePerCapita := 1,
          retailEstimatePerCapita := 1, foodServiceEstimatePerCapita := 1 },
        { year := 999, combinedFigures := 3 / 2, householdEstimatePerCapita := 3 / 2,
          retailEstimatePerCapita := 3 / 2, foodServiceEstimatePerCapita := 3 / 2 }] := rfl
  have hp1 : globalTrendPoint [trendSeriesX, trendSeriesY] 1000 =
      { year := 1000, combinedFigures := 2, householdEstimatePerCapita := 2,
        retailEstimatePerCapita := 2, foodServiceEstimatePerCapita := 2 } := by
    simp only [globalTrendPoint, hyp1]
    norm_num [roundTo1, round_eq, List.foldl]
  have hp2 : globalTrendPoint [trendSeriesX, trendSeriesY] 999 =
      { year := 999, combinedFigures := 13 / 10, householdEstimatePerCapita := 13 / 10,
        retailEstimatePerCapita := 13 / 10, foodServiceEstimatePerCapita := 13 / 10 } := by
    simp only [globalTrendPoint, hyp2]
    norm_num [roundTo1, round_eq, List.foldl]
  simp only [getGlobalTrendData, hdedup, hyears, List.map_cons, List.map_nil, hp1, hp2]

/-- Counterexample to C9 as stated: with one series holding year 999 and
another holding years 999 and 1000, the output years are `[1000, 999]` —
the comparator-less `sort()` compares years as strings, and
`"1000" < "999"` — so the years are not ascending; moreover the year-999
metric is `1.3`, the rounded value of the exact mean `(1 + 1.5) / 2 =
1.25`, so the output is the rounded mean, not the arithmetic mean. -/
theorem getGlobalTrendData_cex :
    (getGlobalTrendData [trendSeriesX, trendSeriesY]).map (fun p => p.year) =
        [1000, 999] ∧
      ¬ List.Chain' (fun a b => a < b)
        ((getGlobalTrendData [trendSeriesX, trendSeriesY]).map (fun p => p.year)) ∧
      (getGlobalTrendData [trendSeriesX, trendSeriesY]).map (fun p => p.combinedFigures) =
        [2, 13 / 10] ∧
      (13 / 10 : ℚ) ≠ (1 + 3 / 2) / 2 := by
  rw [getGlobalTrendData_xy_eval]
  refine ⟨by simp, ?_, by simp, by norm_num⟩
  intro hchain
  simp [List.chain'_cons] at hchain

/-- C9 amended: `getGlobalTrendData` returns one point per distinct year
occurring in any input series; the years are sorted in the
comparator-less JS `sort()` order, i.e. lexicographically by decimal
string (which coincides with ascending numeric order whenever all years
have the same digit count, e.g. four-digit years); and each of the four
metrics is the arithmetic mean over only the series contributing a
point for that year (divisor = contributing count, not the total series
count), rounded to one decimal place. -/
theorem getGlobalTrendData_amended (trendData : List CountryTrendData)
    (hnd : ∀ country ∈ trendData, (country.trendData.map (fun p => p.year)).Nodup) :
    ((getGlobalTrendData trendData).map (fun p => p.year)).Nodup ∧
      (∀ y : ℤ, y ∈ (getGlobalTrendData trendData).map (fun p => p.year) ↔
        y ∈ trendData.flatMap (fun country => country.trendData.map (fun point => point.year))) ∧
      List.Pairwise (fun a b => jsNumLe a b = true)
        ((getGlobalTrendData trendData).map (fun p => p.year)) ∧
      ∀ p ∈ getGlobalTrendData trendData,
        p.combinedFigures = roundTo1
            (((yearPoints trendData p.year).map (fun q => q.combinedFigures)).sum /
              ((contributingSeries trendData p.year).length : ℚ)) ∧
          p.householdEstimatePerCapita = roundTo1
            (((yearPoints trendData p.year).map (fun q => q.householdEstimatePerCapita)).sum /
              ((contributingSeries trendData p.year).length : ℚ)) ∧
          p.retailEstimatePerCapita = roundTo1
            (((yearPoints trendData p.year).map (fun q => q.retailEstimatePerCapita)).sum /
              ((contributingSeries trendData p.year).length : ℚ)) ∧
          p.foodServiceEstimatePerCapita = roundTo1
            (((yearPoints trendData p.year).map (fun q => q.foodServiceEstimatePerCapita)).sum /
              ((contributingSeries trendData p.year).length : ℚ)) := by
  have hperm : (jsSortIntsDefault (jsSetDedup (trendData.flatMap
        (fun country => country.trendData.map (fun point => point.year))))).Perm
      (jsSetDedup (trendData.flatMap
        (fun country => country.trendData.map (fun point => point.year)))) :=
    List.mergeSort_perm _ _
  refine ⟨?_, ?_, ?_, ?_⟩
  · rw [map_year_getGlobalTrendData]
    exact hperm.nodup_iff.mpr (nodup_jsSetDedup _)
  · intro y
    rw [map_year_getGlobalTrendData]
    rw [hperm.mem_iff, mem_jsSetDedup]
  · rw [map_year_getGlobalTrendData]
    exact @List.sorted_mergeSort ℤ (fun a b => jsNumLe a b)
      (fun a b c => jsNumLe_trans a b c) (fun a b => jsNumLe_total a b) _
  · intro p hp
    unfold getGlobalTrendData at hp
    rcases List.mem_map.mp hp with ⟨y, _, rfl⟩
    have hyear : (globalTrendPoint trendData y).year = y := rfl
    rw [hyear]
    have hcount := yearPoints_length_eq_contributing trendData y hnd
    refine ⟨?_, ?_, ?_, ?_⟩ <;>
      simp only [globalTrendPoint, foldl_add_eq_sum, zero_add, hcount]

/-- Witness for the amended C9 on the two concrete series: the output
years are duplicate-free and sorted in the string order, and the
year-1000 metric equals the rounded mean over the single contributing
series. -/
theorem getGlobalTrendData_amended_witness :
    ((getGlobalTrendData [trendSeriesX, trendSeriesY]).map (fun p => p.year)).Nodup ∧
      List.Pairwise (fun a b => jsNumLe a b = true)
        ((getGlobalTrendData [trendSeriesX, trendSeriesY]).map (fun p => p.year)) ∧
      ({ year := 1000, combinedFigures := 2, householdEstimatePerCapita := 2,
          retailEstimatePerCapita := 2,
          foodServiceEstimatePerCapita := 2 : TrendDataPoint }).combinedFigures = roundTo1
        (((yearPoints [trendSeriesX, trendSeriesY] 1000).map
            (fun q => q.combinedFigures)).sum /
          ((contributingSeries [trendSeriesX, trendSeriesY] 1000).length : ℚ)) := by
  obtain ⟨h1, _, h3, h4⟩ := getGlobalTrendData_amended [trendSeriesX, trendSeriesY]
    (by decide)
  refine ⟨h1, h3, ?_⟩
  exact (h4 _ (by rw [getGlobalTrendData_xy_eval]; simp)).1

/-- C10: every year in the reducer's output occurs in some input series,
so each output year has at least one contributing data point (the
per-year mean never divides by zero); and `getRegionalTrendData` for a
region matching no series returns the empty list rather than failing. -/
theorem getGlobalTrendData_years_safe (trendData : List CountryTrendData) :
    (∀ p ∈ getGlobalTrendData trendData,
        p.year ∈ trendData.flatMap (fun country => country.trendData.map (fun point => point.year)) ∧
          1 ≤ (yearPoints trendData p.year).length) ∧
      ∀ region : String, trendData.filter (fun country => country.region == region) = [] →
        getRegionalTrendData trendData region = [] := by
  constructor
  · intro p hp
    unfold getGlobalTrendData at hp
    rcases List.mem_map.mp hp with ⟨y, hy, rfl⟩
    have hyear : (globalTrendPoint trendData y).year = y := rfl
    rw [hyear]
    have hyin : y ∈ trendData.flatMap
        (fun country => country.trendData.map (fun point => point.year)) := by
      rw [← mem_jsSetDedup, ← (List.mergeSort_perm _ (fun a b => jsNumLe a b)).mem_iff]
      exact hy
    refine ⟨hyin, ?_⟩
    rcases List.mem_flatMap.mp hyin with ⟨c, hc, hyc⟩
    rcases List.mem_map.mp hyc with ⟨q, hq, hqy⟩
    have hqmem : q ∈ yearPoints trendData y :=
      List.mem_flatMap.mpr ⟨c, hc, List.mem_filter.mpr ⟨hq, by simp [hqy]⟩⟩
    exact List.length_pos.mpr (List.ne_nil_of_mem hqmem)
  · intro region h
    unfold getRegionalTrendData
    rw [h]
    simp [getGlobalTrendData, jsSortIntsDefault, jsSetDedup]

/-- Witness for C10: year 1000 of the concrete series pair has a
contributing point, and a region matching no series yields `[]`. -/
theorem getGlobalTrendData_years_safe_witness :
    1 ≤ (yearPoints [trendSeriesX, trendSeriesY] (1000 : ℤ)).length ∧
      getRegionalTrendData [trendSeriesX, trendSeriesY] "Q" = [] := by
  have h := getGlobalTrendData_years_safe [trendSeriesX, trendSeriesY]
  constructor
  · exact (h.1 (⟨1000, 2, 2, 2, 2⟩ : TrendDataPoint)
      (by rw [getGlobalTrendData_xy_eval]; simp)).2
  · exact h.2 "Q" (by decide)
